import Mathlib

/-!
# Verification of `src/script.js` (unixporn-site)

Shallow embedding of the two components of the page script:

* the gallery renderer `addRice`, which builds a visual card from a rice
  entry and appends it to the `riceGrid` container, and
* the submission flow `submitRice` / `createGitHubIssue`, which validates
  the URL in the input field, disables the submit button, delegates to the
  (stubbed) issue-creation call and restores the button afterwards.

DOM effects are modelled explicitly: the gallery as the list of cards inside
the container, the submission flow as a trace of DOM events (alerts, button
state changes, the collaborator invocation, input-field writes) together
with the page state obtained by replaying that trace.  The stub's
`Math.random()` draw is made an explicit rational argument `r`, and the
`setTimeout` delay is recorded as a field of the result.
-/

namespace UnixpornSite

/-- A JavaScript value that may arrive in the `mediaUrl` argument of
`addRice`: a single string reference, an array of string references, or a
malformed value (a number, a boolean, or `undefined` for a missing field). -/
inductive JsValue where
  | str (s : String)
  | arr (l : List String)
  | num (n : Int)
  | bool (b : Bool)
  | undef
deriving DecidableEq

/-- JavaScript string coercion as performed by template-literal
interpolation `${v}`: arrays join their elements with commas, `undefined`
prints as `"undefined"`, numbers and booleans print their decimal/name form. -/
def jsValueToString : JsValue → String
  | .str s => s
  | .arr l => String.intercalate "," l
  | .num n => toString n
  | .bool b => toString b
  | .undef => "undefined"

/-- A media element appearing in the markup a card holds: either the
`<video class="rice-video">` playback element or an `<img ... class="rice-image">`
element with its `src` and `alt` attributes. -/
inductive MediaElem where
  | video (src : String)
  | img (src : String) (alt : String)
deriving DecidableEq

/-- The media elements of the `mediaHTML` string built by `addRice`
(src/script.js lines 7-20): `mediaType === 'video'` gives a single playback
element; otherwise an array gives one image per URL in order (alt
`"Screenshot"`), and any other value gives a single image (alt
`"Desktop Screenshot"`) via string coercion of the value. -/
def mediaElems (mediaUrl : JsValue) (mediaType : String) : List MediaElem :=
  if mediaType = "video" then
    [MediaElem.video (jsValueToString mediaUrl)]
  else
    match mediaUrl with
    | .arr l => l.map fun url => MediaElem.img url "Screenshot"
    | v => [MediaElem.img (jsValueToString v) "Desktop Screenshot"]

/-- Number of video playback elements in a list of media elements. -/
def countVideos (es : List MediaElem) : Nat :=
  (es.filter fun e => match e with | .video _ => true | _ => false).length

/-- Number of image elements in a list of media elements. -/
def countImages (es : List MediaElem) : Nat :=
  (es.filter fun e => match e with | .img _ _ => true | _ => false).length

/-- The `src` attributes of the image elements, in markup order. -/
def imgSrcs (es : List MediaElem) : List String :=
  es.filterMap fun e => match e with | .img src _ => some src | _ => none

/-- The visual card `addRice` builds (the `div.rice-card` node): header
data, media elements, the source link and the engagement counts that are
interpolated into its `innerHTML`. -/
structure RiceCard where
  username : String
  title : String
  media : List MediaElem
  redditUrl : String
  upvotes : Int
  comments : Int
deriving DecidableEq

/-- The card built from one set of `addRice` arguments. -/
def mkRiceCard (username title : String) (mediaUrl : JsValue)
    (mediaType redditUrl : String) (upvotes comments : Int) : RiceCard :=
  ⟨username, title, mediaElems mediaUrl mediaType, redditUrl, upvotes, comments⟩

/-- A thrown JavaScript error, carrying its `message` property. -/
structure JsError where
  message : String
deriving DecidableEq

/-- The page as the gallery renderer sees it: the `riceGrid` container's
child list, or `none` when `document.getElementById('riceGrid')` finds no
such element. -/
structure Page where
  riceGrid : Option (List RiceCard)
deriving DecidableEq

/-- `addRice` (src/script.js lines 2-38): build the card and append it as
the last child of the `riceGrid` container.  The only fallible step is the
`grid.appendChild` on the result of `getElementById`: when the container is
missing a `TypeError` is thrown; every other step (string interpolation,
the `forEach` loop, `innerHTML` assignment) cannot fail. -/
def addRice (page : Page) (username title : String) (mediaUrl : JsValue)
    (mediaType redditUrl : String) (upvotes comments : Int) :
    Except JsError Page :=
  match page.riceGrid with
  | none =>
      Except.error ⟨"Cannot read properties of null (reading 'appendChild')"⟩
  | some cards =>
      Except.ok
        ⟨some (cards ++
          [mkRiceCard username title mediaUrl mediaType redditUrl upvotes comments])⟩

/-- Result of the stubbed `createGitHubIssue` call: the `setTimeout` delay
before settlement, and the settled outcome. -/
structure IssueResult where
  delayMs : Nat
  outcome : Except JsError Unit

/-- `createGitHubIssue` (src/script.js lines 77-108) with the
`Math.random()` draw `r ∈ [0,1)` made explicit: after a 1000 ms timeout it
resolves with no payload when `r > 0.1`, and otherwise rejects with
`new Error('Network error')`.  The URL argument is never consulted. -/
def createGitHubIssue (redditUrl : String) (r : ℚ) : IssueResult :=
  ⟨1000, if r > mkRat 1 10 then Except.ok () else Except.error ⟨"Network error"⟩⟩

/-- The mutable page state the submission flow touches: the URL input's
value, and the submit button's `disabled` flag and label. -/
structure PageState where
  inputValue : String
  btnDisabled : Bool
  btnLabel : String
deriving DecidableEq

/-- A DOM-visible step of the submission flow, in program order: a blocking
`alert`, a write to the button's `disabled` flag or label, the invocation
of the issue-creation collaborator, or a write to the input field. -/
inductive Event where
  | alert (msg : String)
  | setDisabled (b : Bool)
  | setLabel (l : String)
  | invokeIssue (url : String)
  | setInput (v : String)
deriving DecidableEq

/-- Whether an event writes the button's `disabled` flag. -/
def Event.isSetDisabled : Event → Bool
  | .setDisabled _ => true
  | _ => false

/-- Whether an event invokes the issue-creation collaborator. -/
def Event.isInvokeIssue : Event → Bool
  | .invokeIssue _ => true
  | _ => false

/-- The URLs passed to the issue-creation collaborator along a trace. -/
def invokedUrls (tr : List Event) : List String :=
  tr.filterMap fun e => match e with | .invokeIssue u => some u | _ => none

/-- Drop leading whitespace characters from a character list. -/
def dropLeadingWs : List Char → List Char
  | [] => []
  | c :: cs => if c.isWhitespace then dropLeadingWs cs else c :: cs

/-- JavaScript `String.prototype.trim`: strip whitespace from both ends of
the string (modelled on the ASCII whitespace characters, the only ones the
claims exercise). -/
def jsTrim (s : String) : String :=
  ⟨((dropLeadingWs s.data).reverse |> dropLeadingWs).reverse⟩

/-- JavaScript `String.prototype.includes` on the character list: the
pattern occurs as a contiguous run somewhere in the string. -/
def listContainsSub (pat : List Char) : List Char → Bool
  | [] => pat.isEmpty
  | c :: cs => pat.isPrefixOf (c :: cs) || listContainsSub pat cs

/-- `s.includes(pat)` of JavaScript. -/
def jsIncludes (s pat : String) : Bool :=
  listContainsSub pat.data s.data

/-- The community-identifying substring required by the validation gate. -/
def requiredSubstring : String := "reddit.com/r/unixporn"

/-- `submitRice` (src/script.js lines 41-74) as the trace of DOM-visible
events it performs, given the current page state and the stub's random draw
`r`.  The two validation guards alert and return; past them the button is
disabled and relabelled, the collaborator is invoked with the trimmed URL,
the settled outcome runs the `then`/`catch` handler, and the `finally`
handler restores the button. -/
def submitRiceTrace (s : PageState) (r : ℚ) : List Event :=
  let url := jsTrim s.inputValue
  if url = "" then
    [Event.alert "Please enter a Reddit URL"]
  else if !(jsIncludes url requiredSubstring) then
    [Event.alert "Please enter a valid r/unixporn post URL"]
  else
    [Event.setDisabled true, Event.setLabel "Submitting..."] ++
    [Event.invokeIssue url] ++
    (match (createGitHubIssue url r).outcome with
     | Except.ok _ =>
         [Event.alert
            "Rice submitted successfully! It will be reviewed and added if approved.",
          Event.setInput ""]
     | Except.error e =>
         [Event.alert ("Error submitting rice: " ++ e.message)]) ++
    [Event.setDisabled false, Event.setLabel "Submit Rice"]

/-- Replaying one event against the page state. -/
def applyEvent (s : PageState) : Event → PageState
  | .alert _ => s
  | .setDisabled b => ⟨s.inputValue, b, s.btnLabel⟩
  | .setLabel l => ⟨s.inputValue, s.btnDisabled, l⟩
  | .invokeIssue _ => s
  | .setInput v => ⟨v, s.btnDisabled, s.btnLabel⟩

/-- The page state after `submitRice` has run to completion (its
asynchronous continuation included). -/
def submitRice (s : PageState) (r : ℚ) : PageState :=
  (submitRiceTrace s r).foldl applyEvent s

/-! ## Helper lemmas -/

theorem countVideos_map_img (l : List String) (alt : String) :
    countVideos (l.map fun url => MediaElem.img url alt) = 0 := by
  induction l with
  | nil => rfl
  | cons u us ih => simp [countVideos, List.filter]

theorem countImages_map_img (l : List String) (alt : String) :
    countImages (l.map fun url => MediaElem.img url alt) = l.length := by
  induction l with
  | nil => rfl
  | cons u us ih => simpa [countImages, List.filter] using ih

theorem imgSrcs_map_img (l : List String) (alt : String) :
    imgSrcs (l.map fun url => MediaElem.img url alt) = l := by
  induction l with
  | nil => rfl
  | cons u us ih => simpa [imgSrcs, List.filterMap] using ih

/-! ## Gallery renderer -/

/-- C5: an entry with `mediaType = 'video'` yields a card with exactly one
video playback element and zero image elements, whether `mediaUrl` is a
single reference or (wrongly) a sequence. -/
theorem video_entry_single_playback (page : Page) (cards : List RiceCard)
    (hg : page.riceGrid = some cards) (username title : String)
    (mediaUrl : JsValue) (mediaType redditUrl : String) (upvotes comments : Int)
    (hv : mediaType = "video") :
    ∃ card : RiceCard,
      addRice page username title mediaUrl mediaType redditUrl upvotes comments =
        Except.ok ⟨some (cards ++ [card])⟩ ∧
      countVideos card.media = 1 ∧ countImages card.media = 0 := by
  refine ⟨mkRiceCard username title mediaUrl mediaType redditUrl upvotes comments,
    by simp [addRice, hg], ?_, ?_⟩ <;>
    simp [mkRiceCard, mediaElems, hv, countVideos, countImages, List.filter]

theorem video_entry_single_playback_witness :
    (Page.mk (some [])).riceGrid = some [] ∧ "video" = "video" ∧
    ∃ card : RiceCard,
      addRice ⟨some []⟩ "u1" "my rice" (JsValue.arr ["a.png", "b.png"]) "video"
          "https://reddit.com/r/unixporn/comments/x" 3 1 =
        Except.ok ⟨some ([] ++ [card])⟩ ∧
      countVideos card.media = 1 ∧ countImages card.media = 0 :=
  ⟨rfl, rfl,
    video_entry_single_playback ⟨some []⟩ [] rfl "u1" "my rice"
      (JsValue.arr ["a.png", "b.png"]) "video"
      "https://reddit.com/r/unixporn/comments/x" 3 1 rfl⟩

/-- C6: an entry with `mediaType ≠ 'video'` yields one image element per
media reference: a sequence of length N gives exactly N image elements with
sources in input order, and a single reference gives exactly one. -/
theorem nonvideo_entry_images (page : Page) (cards : List RiceCard)
    (hg : page.riceGrid = some cards) (mediaType : String)
    (hv : mediaType ≠ "video") (username title redditUrl : String)
    (upvotes comments : Int) :
    (∀ l : List String, ∃ card : RiceCard,
      addRice page username title (JsValue.arr l) mediaType redditUrl upvotes comments =
        Except.ok ⟨some (cards ++ [card])⟩ ∧
      countImages card.media = l.length ∧ imgSrcs card.media = l) ∧
    (∀ u : String, ∃ card : RiceCard,
      addRice page username title (JsValue.str u) mediaType redditUrl upvotes comments =
        Except.ok ⟨some (cards ++ [card])⟩ ∧
      countImages card.media = 1) := by
  constructor
  · intro l
    refine ⟨mkRiceCard username title (JsValue.arr l) mediaType redditUrl upvotes comments,
      by simp [addRice, hg], ?_, ?_⟩ <;>
      simp [mkRiceCard, mediaElems, hv, countImages_map_img, imgSrcs_map_img]
  · intro u
    refine ⟨mkRiceCard username title (JsValue.str u) mediaType redditUrl upvotes comments,
      by simp [addRice, hg], ?_⟩
    simp [mkRiceCard, mediaElems, hv, countImages, List.filter]

theorem nonvideo_entry_images_witness :
    (Page.mk (some [])).riceGrid = some [] ∧ "image" ≠ "video" ∧
    ((∀ l : List String, ∃ card : RiceCard,
      addRice ⟨some []⟩ "u2" "t" (JsValue.arr l) "image" "https://r" 0 0 =
        Except.ok ⟨some ([] ++ [card])⟩ ∧
      countImages card.media = l.length ∧ imgSrcs card.media = l) ∧
    (∀ u : String, ∃ card : RiceCard,
      addRice ⟨some []⟩ "u2" "t" (JsValue.str u) "image" "https://r" 0 0 =
        Except.ok ⟨some ([] ++ [card])⟩ ∧
      countImages card.media = 1)) :=
  ⟨rfl, by decide,
    nonvideo_entry_images ⟨some []⟩ [] rfl "image" (by decide) "u2" "t" "https://r" 0 0⟩

/-- C7: `addRice` has no error path in the entry data: for every input,
malformed media values included (a number, a boolean, a missing
`undefined` field, a sequence where none is expected), it completes and
produces a card rather than throwing. -/
theorem addRice_no_error_path (page : Page) (cards : List RiceCard)
    (hg : page.riceGrid = some cards) (username title : String)
    (mediaUrl : JsValue) (mediaType redditUrl : String) (upvotes comments : Int) :
    ∃ newCards : List RiceCard,
      addRice page username title mediaUrl mediaType redditUrl upvotes comments =
        Except.ok ⟨some newCards⟩ :=
  ⟨cards ++ [mkRiceCard username title mediaUrl mediaType redditUrl upvotes comments],
    by simp [addRice, hg]⟩

theorem addRice_no_error_path_witness :
    (Page.mk (some [])).riceGrid = some [] ∧
    ∃ newCards : List RiceCard,
      addRice ⟨some []⟩ "u3" "broken" JsValue.undef "gif" "not a url" (-4) (-1) =
        Except.ok ⟨some newCards⟩ :=
  ⟨rfl, addRice_no_error_path ⟨some []⟩ [] rfl "u3" "broken" JsValue.undef "gif"
    "not a url" (-4) (-1)⟩

/-- C8: `addRice` appends the new card as the last child of the container,
leaves every previously appended card unchanged, and never removes,
updates or deduplicates: a second call with identical arguments appends a
second identical card, growing the child count by exactly one per call. -/
theorem addRice_appends_last (page : Page) (cards : List RiceCard)
    (hg : page.riceGrid = some cards) (username title : String)
    (mediaUrl : JsValue) (mediaType redditUrl : String) (upvotes comments : Int) :
    addRice page username title mediaUrl mediaType redditUrl upvotes comments =
      Except.ok ⟨some (cards ++
        [mkRiceCard username title mediaUrl mediaType redditUrl upvotes comments])⟩ ∧
    (cards ++ [mkRiceCard username title mediaUrl mediaType redditUrl upvotes comments]).length
      = cards.length + 1 ∧
    (cards ++ [mkRiceCard username title mediaUrl mediaType redditUrl upvotes comments]).take
      cards.length = cards ∧
    addRice
      ⟨some (cards ++ [mkRiceCard username title mediaUrl mediaType redditUrl upvotes comments])⟩
      username title mediaUrl mediaType redditUrl upvotes comments =
      Except.ok ⟨some (cards ++
        [mkRiceCard username title mediaUrl mediaType redditUrl upvotes comments,
         mkRiceCard username title mediaUrl mediaType redditUrl upvotes comments])⟩ := by
  refine ⟨by simp [addRice, hg], by simp, List.take_left cards _, ?_⟩
  simp [addRice]

theorem addRice_appends_last_witness :
    (Page.mk (some [])).riceGrid = some [] ∧
    (addRice ⟨some []⟩ "u4" "t" (JsValue.str "s.png") "image" "https://r" 1 2 =
      Except.ok ⟨some ([] ++ [mkRiceCard "u4" "t" (JsValue.str "s.png") "image" "https://r" 1 2])⟩ ∧
    ([] ++ [mkRiceCard "u4" "t" (JsValue.str "s.png") "image" "https://r" 1 2]).length
      = List.length ([] : List RiceCard) + 1 ∧
    ([] ++ [mkRiceCard "u4" "t" (JsValue.str "s.png") "image" "https://r" 1 2]).take
      (List.length ([] : List RiceCard)) = [] ∧
    addRice ⟨some ([] ++ [mkRiceCard "u4" "t" (JsValue.str "s.png") "image" "https://r" 1 2])⟩
      "u4" "t" (JsValue.str "s.png") "image" "https://r" 1 2 =
      Except.ok ⟨some ([] ++
        [mkRiceCard "u4" "t" (JsValue.str "s.png") "image" "https://r" 1 2,
         mkRiceCard "u4" "t" (JsValue.str "s.png") "image" "https://r" 1 2])⟩) :=
  ⟨rfl, addRice_appends_last ⟨some []⟩ [] rfl "u4" "t" (JsValue.str "s.png") "image"
    "https://r" 1 2⟩

/-! ## Issue-creation stub -/

/-- C9: `createGitHubIssue` settles after a fixed 1000 ms delay with an
outcome depending only on the random draw `r ∈ [0,1)`, never on the URL:
it resolves with no payload exactly when `r > 0.1`, and otherwise rejects
with an error whose message is `'Network error'`. -/
theorem createGitHubIssue_contract (url url' : String) (r : ℚ)
    (h0 : 0 ≤ r) (h1 : r < 1) :
    createGitHubIssue url r = createGitHubIssue url' r ∧
    (createGitHubIssue url r).delayMs = 1000 ∧
    ((createGitHubIssue url r).outcome = Except.ok () ↔ mkRat 1 10 < r) ∧
    (¬ mkRat 1 10 < r →
      (createGitHubIssue url r).outcome = Except.error ⟨"Network error"⟩) := by
  refine ⟨rfl, rfl, ?_, ?_⟩
  · by_cases hr : mkRat 1 10 < r <;> simp [createGitHubIssue, hr]
  · intro hr
    simp [createGitHubIssue, hr]

theorem createGitHubIssue_contract_witness :
    (0 ≤ mkRat 1 2) ∧ (mkRat 1 2 < 1) ∧
    (createGitHubIssue "https://reddit.com/r/unixporn/a" (mkRat 1 2) =
      createGitHubIssue "https://example.com/b" (mkRat 1 2) ∧
    (createGitHubIssue "https://reddit.com/r/unixporn/a" (mkRat 1 2)).delayMs = 1000 ∧
    ((createGitHubIssue "https://reddit.com/r/unixporn/a" (mkRat 1 2)).outcome =
        Except.ok () ↔ mkRat 1 10 < mkRat 1 2) ∧
    (¬ mkRat 1 10 < mkRat 1 2 →
      (createGitHubIssue "https://reddit.com/r/unixporn/a" (mkRat 1 2)).outcome =
        Except.error ⟨"Network error"⟩)) :=
  ⟨by decide, by decide,
    createGitHubIssue_contract "https://reddit.com/r/unixporn/a"
      "https://example.com/b" (mkRat 1 2) (by decide) (by decide)⟩

/-! ## Submission flow -/

theorem submitRiceTrace_valid (s : PageState) (r : ℚ)
    (h1 : jsTrim s.inputValue ≠ "")
    (h2 : jsIncludes (jsTrim s.inputValue) requiredSubstring = true) :
    submitRiceTrace s r =
      [Event.setDisabled true, Event.setLabel "Submitting...",
       Event.invokeIssue (jsTrim s.inputValue)] ++
      (match (createGitHubIssue (jsTrim s.inputValue) r).outcome with
       | Except.ok _ =>
           [Event.alert
              "Rice submitted successfully! It will be reviewed and added if approved.",
            Event.setInput ""]
       | Except.error e =>
           [Event.alert ("Error submitting rice: " ++ e.message)]) ++
      [Event.setDisabled false, Event.setLabel "Submit Rice"] := by
  simp only [submitRiceTrace, h2, Bool.not_true, if_neg h1, if_false, Bool.false_eq_true]
  rfl

/-- C1: on every input passing validation, the submit control is disabled
and relabelled to the in-progress indication strictly before the
issue-creation call is invoked, nothing between the invocation and the
settle handlers touches the disabled flag or re-invokes the collaborator,
and after the call settles — success or failure — the control is re-enabled
with its original label `'Submit Rice'` restored. -/
theorem submit_control_guarded_lifecycle (s : PageState) (r : ℚ)
    (h1 : jsTrim s.inputValue ≠ "")
    (h2 : jsIncludes (jsTrim s.inputValue) requiredSubstring = true) :
    ∃ branch : List Event,
      submitRiceTrace s r =
        [Event.setDisabled true, Event.setLabel "Submitting...",
         Event.invokeIssue (jsTrim s.inputValue)] ++ branch ++
        [Event.setDisabled false, Event.setLabel "Submit Rice"] ∧
      (∀ e ∈ branch, e.isSetDisabled = false ∧ e.isInvokeIssue = false) ∧
      (submitRice s r).btnDisabled = false ∧
      (submitRice s r).btnLabel = "Submit Rice" := by
  have htr := submitRiceTrace_valid s r h1 h2
  cases ho : (createGitHubIssue (jsTrim s.inputValue) r).outcome with
  | ok u =>
      rw [ho] at htr
      refine ⟨[Event.alert
          "Rice submitted successfully! It will be reviewed and added if approved.",
        Event.setInput ""], htr, ?_, ?_, ?_⟩
      · intro ev hev
        simp only [List.mem_cons, List.not_mem_nil, or_false] at hev
        rcases hev with rfl | rfl <;> exact ⟨rfl, rfl⟩
      · rw [submitRice, htr]; rfl
      · rw [submitRice, htr]; rfl
  | error e =>
      rw [ho] at htr
      refine ⟨[Event.alert ("Error submitting rice: " ++ e.message)], htr, ?_, ?_, ?_⟩
      · intro ev hev
        simp only [List.mem_cons, List.not_mem_nil, or_false] at hev
        subst hev
        exact ⟨rfl, rfl⟩
      · rw [submitRice, htr]; rfl
      · rw [submitRice, htr]; rfl

theorem submit_control_guarded_lifecycle_witness :
    jsTrim "https://reddit.com/r/unixporn/comments/abc123" ≠ "" ∧
    jsIncludes (jsTrim "https://reddit.com/r/unixporn/comments/abc123") requiredSubstring
      = true ∧
    ∃ branch : List Event,
      submitRiceTrace ⟨"https://reddit.com/r/unixporn/comments/abc123", false, "Submit Rice"⟩
          (mkRat 1 2) =
        [Event.setDisabled true, Event.setLabel "Submitting...",
         Event.invokeIssue (jsTrim "https://reddit.com/r/unixporn/comments/abc123")] ++
          branch ++
        [Event.setDisabled false, Event.setLabel "Submit Rice"] ∧
      (∀ e ∈ branch, e.isSetDisabled = false ∧ e.isInvokeIssue = false) ∧
      (submitRice ⟨"https://reddit.com/r/unixporn/comments/abc123", false, "Submit Rice"⟩
        (mkRat 1 2)).btnDisabled = false ∧
      (submitRice ⟨"https://reddit.com/r/unixporn/comments/abc123", false, "Submit Rice"⟩
        (mkRat 1 2)).btnLabel = "Submit Rice" :=
  ⟨by decide, by decide,
    submit_control_guarded_lifecycle
      ⟨"https://reddit.com/r/unixporn/comments/abc123", false, "Submit Rice"⟩
      (mkRat 1 2) (by decide) (by decide)⟩

/-- C2: when the trimmed input is empty or lacks the substring
`'reddit.com/r/unixporn'`, `submitRice` emits a single blocking alert and
aborts: the collaborator is never invoked and the page state — the input
field, the button's disabled flag and its label — is left untouched. -/
theorem validation_failure_aborts (s : PageState) (r : ℚ)
    (h : jsTrim s.inputValue = "" ∨
      jsIncludes (jsTrim s.inputValue) requiredSubstring = false) :
    (∃ msg, submitRiceTrace s r = [Event.alert msg]) ∧
    invokedUrls (submitRiceTrace s r) = [] ∧
    submitRice s r = s := by
  have hmsg : ∃ msg, submitRiceTrace s r = [Event.alert msg] := by
    by_cases h0 : jsTrim s.inputValue = ""
    · exact ⟨"Please enter a Reddit URL", by simp [submitRiceTrace, h0]⟩
    · rcases h with h | h
      · exact absurd h h0
      · exact ⟨"Please enter a valid r/unixporn post URL",
          by simp [submitRiceTrace, h0, h]⟩
  obtain ⟨msg, hm⟩ := hmsg
  exact ⟨⟨msg, hm⟩, by rw [hm]; rfl, by rw [submitRice, hm]; rfl⟩

theorem validation_failure_aborts_witness :
    (jsTrim "  " = "" ∨ jsIncludes (jsTrim "  ") requiredSubstring = false) ∧
    ((∃ msg, submitRiceTrace ⟨"  ", false, "Submit Rice"⟩ 0 = [Event.alert msg]) ∧
    invokedUrls (submitRiceTrace ⟨"  ", false, "Submit Rice"⟩ 0) = [] ∧
    submitRice ⟨"  ", false, "Submit Rice"⟩ 0 = ⟨"  ", false, "Submit Rice"⟩) :=
  ⟨Or.inl (by decide),
    validation_failure_aborts ⟨"  ", false, "Submit Rice"⟩ 0 (Or.inl (by decide))⟩

/-- C3: on every input passing validation, the collaborator is invoked
exactly once, with the trimmed URL; when it resolves (draw `r > 0.1`) the
success alert is shown and the input field is cleared to the empty
string. -/
theorem valid_submission_success (s : PageState) (r : ℚ)
    (h1 : jsTrim s.inputValue ≠ "")
    (h2 : jsIncludes (jsTrim s.inputValue) requiredSubstring = true)
    (hr : mkRat 1 10 < r) :
    invokedUrls (submitRiceTrace s r) = [jsTrim s.inputValue] ∧
    Event.alert "Rice submitted successfully! It will be reviewed and added if approved."
      ∈ submitRiceTrace s r ∧
    (submitRice s r).inputValue = "" := by
  have htr := submitRiceTrace_valid s r h1 h2
  rw [show (createGitHubIssue (jsTrim s.inputValue) r).outcome = Except.ok () from by
    simp [createGitHubIssue, hr]] at htr
  refine ⟨by rw [htr]; rfl, by rw [htr]; simp, by rw [submitRice, htr]; rfl⟩

theorem valid_submission_success_witness :
    jsTrim "https://reddit.com/r/unixporn/comments/abc123" ≠ "" ∧
    jsIncludes (jsTrim "https://reddit.com/r/unixporn/comments/abc123") requiredSubstring
      = true ∧
    mkRat 1 10 < mkRat 1 2 ∧
    (invokedUrls (submitRiceTrace
        ⟨"https://reddit.com/r/unixporn/comments/abc123", false, "Submit Rice"⟩
        (mkRat 1 2)) = [jsTrim "https://reddit.com/r/unixporn/comments/abc123"] ∧
    Event.alert "Rice submitted successfully! It will be reviewed and added if approved."
      ∈ submitRiceTrace
        ⟨"https://reddit.com/r/unixporn/comments/abc123", false, "Submit Rice"⟩
        (mkRat 1 2) ∧
    (submitRice ⟨"https://reddit.com/r/unixporn/comments/abc123", false, "Submit Rice"⟩
      (mkRat 1 2)).inputValue = "") :=
  ⟨by decide, by decide, by decide,
    valid_submission_success
      ⟨"https://reddit.com/r/unixporn/comments/abc123", false, "Submit Rice"⟩
      (mkRat 1 2) (by decide) (by decide) (by decide)⟩

/-- C4: on every input passing validation, when the collaborator rejects
(draw `r ≤ 0.1`) a blocking failure alert is shown whose text contains the
collaborator's reported message `'Network error'`, and the collaborator was
invoked exactly once — no automatic retry happens. -/
theorem valid_submission_failure (s : PageState) (r : ℚ)
    (h1 : jsTrim s.inputValue ≠ "")
    (h2 : jsIncludes (jsTrim s.inputValue) requiredSubstring = true)
    (hr : ¬ mkRat 1 10 < r) :
    ∃ msg, Event.alert msg ∈ submitRiceTrace s r ∧
      jsIncludes msg "Network error" = true ∧
      invokedUrls (submitRiceTrace s r) = [jsTrim s.inputValue] := by
  have htr := submitRiceTrace_valid s r h1 h2
  rw [show (createGitHubIssue (jsTrim s.inputValue) r).outcome =
      Except.error ⟨"Network error"⟩ from by simp [createGitHubIssue, hr]] at htr
  exact ⟨"Error submitting rice: " ++ "Network error",
    by rw [htr]; simp, by decide, by rw [htr]; rfl⟩

theorem valid_submission_failure_witness :
    jsTrim "https://reddit.com/r/unixporn/comments/abc123" ≠ "" ∧
    jsIncludes (jsTrim "https://reddit.com/r/unixporn/comments/abc123") requiredSubstring
      = true ∧
    ¬ mkRat 1 10 < (0 : ℚ) ∧
    ∃ msg, Event.alert msg ∈ submitRiceTrace
        ⟨"https://reddit.com/r/unixporn/comments/abc123", false, "Submit Rice"⟩ 0 ∧
      jsIncludes msg "Network error" = true ∧
      invokedUrls (submitRiceTrace
        ⟨"https://reddit.com/r/unixporn/comments/abc123", false, "Submit Rice"⟩ 0) =
        [jsTrim "https://reddit.com/r/unixporn/comments/abc123"] :=
  ⟨by decide, by decide, by decide,
    valid_submission_failure
      ⟨"https://reddit.com/r/unixporn/comments/abc123", false, "Submit Rice"⟩ 0
      (by decide) (by decide) (by decide)⟩

/-- C10: on every input passing validation, when the collaborator rejects
the input field keeps its value (it is cleared only on success) and the
control ends re-enabled, so the same URL can be re-submitted. -/
theorem rejection_preserves_input (s : PageState) (r : ℚ)
    (h1 : jsTrim s.inputValue ≠ "")
    (h2 : jsIncludes (jsTrim s.inputValue) requiredSubstring = true)
    (hr : ¬ mkRat 1 10 < r) :
    (submitRice s r).inputValue = s.inputValue ∧
    (submitRice s r).btnDisabled = false := by
  have htr := submitRiceTrace_valid s r h1 h2
  rw [show (createGitHubIssue (jsTrim s.inputValue) r).outcome =
      Except.error ⟨"Network error"⟩ from by simp [createGitHubIssue, hr]] at htr
  exact ⟨by rw [submitRice, htr]; rfl, by rw [submitRice, htr]; rfl⟩

theorem rejection_preserves_input_witness :
    jsTrim "https://reddit.com/r/unixporn/comments/abc123" ≠ "" ∧
    jsIncludes (jsTrim "https://reddit.com/r/unixporn/comments/abc123") requiredSubstring
      = true ∧
    ¬ mkRat 1 10 < (0 : ℚ) ∧
    ((submitRice ⟨"https://reddit.com/r/unixporn/comments/abc123", false, "Submit Rice"⟩
      0).inputValue = "https://reddit.com/r/unixporn/comments/abc123" ∧
    (submitRice ⟨"https://reddit.com/r/unixporn/comments/abc123", false, "Submit Rice"⟩
      0).btnDisabled = false) :=
  ⟨by decide, by decide, by decide,
    rejection_preserves_input
      ⟨"https://reddit.com/r/unixporn/comments/abc123", false, "Submit Rice"⟩ 0
      (by decide) (by decide) (by decide)⟩

end UnixpornSite
